import Mathlib

/-!
Shallow embedding of the functional-dependency discovery tool
(`phase2_document_model/code/discover_functional_dependencies.py`).

A pandas `DataFrame` is modelled as a list of column names plus a list of
rows; a row is an association list from column name to an optional value
(`none` models a null/NaN cell).  All values of a table live in one type
`V` with decidable equality (pandas compares cell values for grouping and
`nunique`; mixed-type columns are modelled by choosing `V` a sum type).

Modelling choices, all invisible to the claims under consideration:
* `groupby` iterates partitions in sorted key order in pandas; here the
  partitions are enumerated in order of first occurrence of their key.
  The aggregate result is proved independent of this order
  (`check_functional_dependency` only feeds the partitions through
  counting), so only the *content* of `violation_examples` (never its
  emptiness) could depend on the choice.
* `Series.nunique()` (distinct non-null count) is the length of `dedup`
  of the non-null values; `Series.unique()` keeps first-occurrence order,
  modelled by `uniqueFirst`.
-/

namespace FDDiscovery

/-- A row of a table: an association list from column name to cell, where a
cell is `Option V` and `none` models a null (NaN) entry. -/
abbrev Row (V : Type) := List (String × Option V)

/-- Reading a cell of a row by column name.  A column absent from the row is
read as null (in pandas every row of a frame carries every column, so the
default is never exercised on well-formed frames). -/
def getCell {V : Type} (r : Row V) (c : String) : Option V :=
  (r.lookup c).getD none

/-- A pandas `DataFrame`: the list of column names and the list of rows. -/
structure DataFrame (V : Type) where
  cols : List String
  rows : List (Row V)

/-- Whether every determinant column of a row is non-null; the rows kept by
`df.dropna(subset=determinant_cols)`. -/
def rowDetNonNull {V : Type} (det : List String) (r : Row V) : Bool :=
  det.all fun c => (getCell r c).isSome

/-- The rows surviving `df.dropna(subset=determinant_cols)`: rows in which
every determinant column is non-null. -/
def cleanRows {V : Type} (df : DataFrame V) (det : List String) : List (Row V) :=
  df.rows.filter (rowDetNonNull det)

/-- The grouping key of a row for `df_clean.groupby(determinant_cols)`: the
tuple of determinant-column values. -/
def detKey {V : Type} (det : List String) (r : Row V) : List (Option V) :=
  det.map (getCell r)

/-- Worker for `uniqueFirst`: keeps the elements not seen before, threading
the set of already-emitted elements. -/
def uniqueFirstAux {α : Type} [DecidableEq α] : List α → List α → List α
  | [], _ => []
  | a :: l, seen =>
      if a ∈ seen then uniqueFirstAux l seen else a :: uniqueFirstAux l (a :: seen)

/-- Distinct elements of a list in order of first occurrence (the order
`Series.unique()` reports). -/
def uniqueFirst {α : Type} [DecidableEq α] (l : List α) : List α :=
  uniqueFirstAux l []

/-- The group keys produced by `groupby(determinant_cols)` on a row list:
each distinct determinant tuple once (enumerated at first occurrence; the
aggregates are proved order-independent). -/
def groupKeys {V : Type} [DecidableEq V] (det : List String) (rows : List (Row V)) :
    List (List (Option V)) :=
  uniqueFirst (rows.map (detKey det))

/-- The rows of the partition with determinant tuple `k`. -/
def groupRows {V : Type} [DecidableEq V] (det : List String) (rows : List (Row V))
    (k : List (Option V)) : List (Row V) :=
  rows.filter fun r => decide (detKey det r = k)

/-- The non-null values of column `c` over a list of rows
(`group[dep_col].dropna()`). -/
def nonNullVals {V : Type} (rows : List (Row V)) (c : String) : List V :=
  rows.filterMap fun r => getCell r c

/-- The number of distinct non-null values of column `c` over a list of rows
(`group[dep_col].dropna().nunique()`). -/
def distinctNonNull {V : Type} [DecidableEq V] (rows : List (Row V)) (c : String) : Nat :=
  (nonNullVals rows c).dedup.length

/-- The first dependent column that violates inside one partition: the
`for dep_col in dependent_cols` loop guards each column with
`dep_col in group.columns`, counts a violation when the distinct non-null
count exceeds 1, and `break`s out of the dependent-column loop at the first
violation, so only the first such column is ever seen. -/
def firstViolatingDep {V : Type} [DecidableEq V] (cols deps : List String)
    (g : List (Row V)) : Option String :=
  deps.find? fun c => cols.contains c && decide (1 < distinctNonNull g c)

/-- One recorded violation example.  `determinant_value` is stored as the
key tuple (the Python renders it as a bare scalar for a single determinant
column and as a dict otherwise — a presentation difference only);
`dependent_values` is `group[dep_col].dropna().unique()[:3]`. -/
structure ViolationExample (V : Type) where
  determinant_value : List (Option V)
  dependent_column : String
  dependent_values : List V
deriving DecidableEq

/-- The result tuple of `check_functional_dependency`. -/
structure FDResult (V : Type) where
  holds : Bool
  violation_count : Nat
  group_count : Nat
  violation_examples : List (ViolationExample V)
deriving DecidableEq

/-- The violation example contributed by the partition with key `k` (none if
the partition violates no dependent column). -/
def groupExample {V : Type} [DecidableEq V] (cols det deps : List String)
    (rows : List (Row V)) (k : List (Option V)) : Option (ViolationExample V) :=
  (firstViolatingDep cols deps (groupRows det rows k)).map fun c =>
    ⟨k, c, (uniqueFirst (nonNullVals (groupRows det rows k) c)).take 3⟩

/-- Embedding of `check_functional_dependency(df, determinant_cols,
dependent_cols)`.  An empty frame, or a frame in which every row has a null
determinant entry, returns `(False, 0, 0, [])`.  Otherwise the clean rows
are partitioned by determinant tuple; `total_groups` counts every
partition, `violations` is incremented once per partition having a
violating dependent column (the loop `break`s after the first one), an
example is appended for such a partition while fewer than 3 examples are
held (hence: the first 3), and `holds = violations == 0`. -/
def check_functional_dependency {V : Type} [DecidableEq V] (df : DataFrame V)
    (det deps : List String) : FDResult V :=
  if df.rows.isEmpty then ⟨false, 0, 0, []⟩
  else
    let clean := cleanRows df det
    if clean.isEmpty then ⟨false, 0, 0, []⟩
    else
      let keys := groupKeys det clean
      let violations := keys.countP fun k =>
        (firstViolatingDep df.cols deps (groupRows det clean k)).isSome
      { holds := decide (violations = 0)
        violation_count := violations
        group_count := keys.length
        violation_examples := (keys.filterMap (groupExample df.cols det deps clean)).take 3 }

/-- One entry of the `discovered_fds` list assembled by `analyze_table_fds`
(`fd_type` carries the Python dict's `'type'` field; the constant
`'confidence': 'High'` field is omitted as it never varies). -/
structure DiscoveredFD where
  determinant : List String
  dependent : List String
  fd_type : String
  holds : Bool
  violations : Nat
deriving DecidableEq

/-- The `other_cols` of the primary-key step of `analyze_table_fds`: all
table columns not among the primary-key columns. -/
def pkOtherCols {V : Type} (df : DataFrame V) (pk : List String) : List String :=
  df.cols.filter fun c => !(pk.contains c)

/-- Embedding of the primary-key step of `analyze_table_fds` (the only step
that can append a record of type `'Primary Key'` to `discovered_fds`): when
the declared primary key and the remaining columns are both non-empty, the
checker is run with the primary key as determinant and all other columns as
dependents, and a record — with `holds=True, violations=0` — is appended
only under `if holds:`; a failing check appends nothing. -/
def pkDiscoveredFDs {V : Type} [DecidableEq V] (df : DataFrame V) (pk : List String) :
    List DiscoveredFD :=
  if pk.isEmpty then []
  else
    let other := pkOtherCols df pk
    if other.isEmpty then []
    else
      let r := check_functional_dependency df pk other
      if r.holds then [⟨pk, other, "Primary Key", true, 0⟩] else []

/-- The uniqueness ratio of a column in the candidate-key step of
`analyze_table_fds`: `df[col].nunique() / len(df)` when the frame has rows
and `0` otherwise (`nunique` drops nulls by default).  Python computes a
float; the ratio is exact here, which agrees on every comparison the code
makes (`== 1.0`). -/
def uniquenessRatio {V : Type} [DecidableEq V] (df : DataFrame V) (c : String) : ℚ :=
  if 0 < df.rows.length then (distinctNonNull df.rows c : ℚ) / (df.rows.length : ℚ) else 0

/-- Embedding of the candidate-key identification loop of
`analyze_table_fds`: every column outside the declared primary key whose
uniqueness ratio is exactly 1 and whose distinct non-null count is
positive. -/
def candidate_keys {V : Type} [DecidableEq V] (df : DataFrame V) (pk : List String) :
    List String :=
  df.cols.filter fun c =>
    !(pk.contains c) && decide (uniquenessRatio df c = 1)
      && decide (0 < distinctNonNull df.rows c)

/-- Semantic satisfaction of the functional dependency `det → deps` by a set
of rows: any two rows agreeing on the determinant tuple agree on every
dependent column of the table wherever both values are non-null (the
checker treats the dependent values of a partition as consistent exactly
when at most one distinct non-null value appears). -/
def SatisfiesFD {V : Type} (cols det deps : List String) (rows : List (Row V)) : Prop :=
  ∀ c ∈ deps, c ∈ cols → ∀ r1 ∈ rows, ∀ r2 ∈ rows,
    detKey det r1 = detKey det r2 →
    (getCell r1 c).isSome → (getCell r2 c).isSome → getCell r1 c = getCell r2 c

instance {V : Type} [DecidableEq V] (cols det deps : List String) (rows : List (Row V)) :
    Decidable (SatisfiesFD cols det deps rows) := by
  unfold SatisfiesFD; infer_instance

/-- Concrete table for witnesses (spec §8 Scenario A): `{id:[1,2,3],
sub:[a,a,b]}` with values encoded as naturals. -/
def dfScenarioA : DataFrame Nat :=
  ⟨["id", "sub"],
   [[("id", some 1), ("sub", some 10)],
    [("id", some 2), ("sub", some 10)],
    [("id", some 3), ("sub", some 20)]]⟩

/-- Concrete table for witnesses (spec §8 Scenario B): `{sub_id:[1,1,2],
name:[x,y,z]}` with the names encoded as naturals. -/
def dfScenarioB : DataFrame Nat :=
  ⟨["sub_id", "name"],
   [[("sub_id", some 1), ("name", some 100)],
    [("sub_id", some 1), ("name", some 200)],
    [("sub_id", some 2), ("name", some 300)]]⟩

/-- Concrete table in which the single partition `k = 1` violates on both
dependent columns `a` and `b`. -/
def dfTwoDeps : DataFrame Nat :=
  ⟨["k", "a", "b"],
   [[("k", some 1), ("a", some 1), ("b", some 1)],
    [("k", some 1), ("a", some 2), ("b", some 2)]]⟩

/-- Concrete table with a declared primary key `id` whose value 5 is
duplicated across rows carrying different `x` values (spec §8
Scenario E). -/
def dfDupPK : DataFrame Nat :=
  ⟨["id", "x"],
   [[("id", some 5), ("x", some 1)],
    [("id", some 5), ("x", some 2)]]⟩

/-- Concrete table whose first row has a null determinant entry while the
remaining rows satisfy `a → b` (spec §8 Scenario D). -/
def dfNullDet : DataFrame Nat :=
  ⟨["a", "b"],
   [[("a", none), ("b", some 1)],
    [("a", some 1), ("b", some 2)],
    [("a", some 1), ("b", some 2)]]⟩

/-! ## Basic lemmas about the embedding -/

theorem mem_uniqueFirstAux {α : Type} [DecidableEq α] (l : List α) : ∀ (seen : List α)
    (x : α), x ∈ uniqueFirstAux l seen ↔ x ∈ l ∧ x ∉ seen := by
  induction l with
  | nil => simp [uniqueFirstAux]
  | cons a l ih =>
      intro seen x
      rw [uniqueFirstAux]
      by_cases ha : a ∈ seen
      · rw [if_pos ha, ih]
        simp only [List.mem_cons]
        constructor
        · rintro ⟨h1, h2⟩
          exact ⟨Or.inr h1, h2⟩
        · rintro ⟨h1 | h1, h2⟩
          · exact absurd (h1 ▸ ha) h2
          · exact ⟨h1, h2⟩
      · rw [if_neg ha]
        simp only [List.mem_cons, ih]
        by_cases hx : x = a
        · simp [hx, ha]
        · simp [hx]

theorem mem_uniqueFirst {α : Type} [DecidableEq α] (l : List α) (x : α) :
    x ∈ uniqueFirst l ↔ x ∈ l := by
  unfold uniqueFirst
  rw [mem_uniqueFirstAux]
  simp

theorem nodup_uniqueFirstAux {α : Type} [DecidableEq α] (l : List α) : ∀ seen : List α,
    (uniqueFirstAux l seen).Nodup := by
  induction l with
  | nil => intro seen; simp [uniqueFirstAux]
  | cons a l ih =>
      intro seen
      rw [uniqueFirstAux]
      by_cases ha : a ∈ seen
      · rw [if_pos ha]; exact ih seen
      · rw [if_neg ha]
        refine List.nodup_cons.mpr ⟨?_, ih (a :: seen)⟩
        rw [mem_uniqueFirstAux]
        simp

theorem nodup_uniqueFirst {α : Type} [DecidableEq α] (l : List α) :
    (uniqueFirst l).Nodup :=
  nodup_uniqueFirstAux l []

theorem cleanRows_of_rows_nil {V : Type} (df : DataFrame V) (det : List String)
    (h : df.rows = []) : cleanRows df det = [] := by
  simp [cleanRows, h]

theorem check_degenerate {V : Type} [DecidableEq V] (df : DataFrame V) (det deps : List String)
    (h : cleanRows df det = []) :
    check_functional_dependency df det deps = ⟨false, 0, 0, []⟩ := by
  unfold check_functional_dependency
  by_cases hr : df.rows.isEmpty
  · simp [hr]
  · simp [hr, h, List.isEmpty_iff]

theorem check_main {V : Type} [DecidableEq V] (df : DataFrame V) (det deps : List String)
    (h : cleanRows df det ≠ []) :
    check_functional_dependency df det deps =
      { holds := decide (((groupKeys det (cleanRows df det)).countP fun k =>
          (firstViolatingDep df.cols deps (groupRows det (cleanRows df det) k)).isSome) = 0)
        violation_count := (groupKeys det (cleanRows df det)).countP fun k =>
          (firstViolatingDep df.cols deps (groupRows det (cleanRows df det) k)).isSome
        group_count := (groupKeys det (cleanRows df det)).length
        violation_examples := ((groupKeys det (cleanRows df det)).filterMap
          (groupExample df.cols det deps (cleanRows df det))).take 3 } := by
  have hr : df.rows ≠ [] := by
    intro hr
    exact h (cleanRows_of_rows_nil df det hr)
  unfold check_functional_dependency
  simp [List.isEmpty_iff, hr, h]

theorem mem_groupKeys {V : Type} [DecidableEq V] (det : List String) (rows : List (Row V))
    (k : List (Option V)) :
    k ∈ groupKeys det rows ↔ ∃ r ∈ rows, detKey det r = k := by
  unfold groupKeys
  rw [mem_uniqueFirst]
  simp [List.mem_map]

theorem distinctNonNull_mono {V : Type} [DecidableEq V] {rows' rows : List (Row V)}
    (h : List.Sublist rows' rows) (c : String) :
    distinctNonNull rows' c ≤ distinctNonNull rows c := by
  unfold distinctNonNull nonNullVals
  rw [← List.card_toFinset, ← List.card_toFinset]
  apply Finset.card_le_card
  intro x hx
  simp only [List.mem_toFinset] at hx ⊢
  exact (h.filterMap _).subset hx

theorem firstViolatingDep_isSome {V : Type} [DecidableEq V] (cols deps : List String)
    (g : List (Row V)) :
    (firstViolatingDep cols deps g).isSome = true ↔
      ∃ c ∈ deps, c ∈ cols ∧ 1 < distinctNonNull g c := by
  unfold firstViolatingDep
  rw [List.find?_isSome]
  simp

theorem firstViolatingDep_mono {V : Type} [DecidableEq V] (cols deps : List String)
    {g' g : List (Row V)} (h : List.Sublist g' g)
    (hv : (firstViolatingDep cols deps g').isSome = true) :
    (firstViolatingDep cols deps g).isSome = true := by
  rw [firstViolatingDep_isSome] at hv ⊢
  obtain ⟨c, hc, hcol, hd⟩ := hv
  exact ⟨c, hc, hcol, lt_of_lt_of_le hd (distinctNonNull_mono h c)⟩

/-! ## Claim theorems -/

/-- C5: for every determinant/dependent pair, a zero-row table makes the
dependency checker return `holds=false`, `violation_count=0`,
`group_count=0` and an empty example list — a defined result, not an
error. -/
theorem C5_empty_table_defined {V : Type} [DecidableEq V] (df : DataFrame V)
    (det deps : List String) (h : df.rows = []) :
    check_functional_dependency df det deps = ⟨false, 0, 0, []⟩ :=
  check_degenerate df det deps (cleanRows_of_rows_nil df det h)

/-- Witness for C5 at the concrete zero-row table with columns `a`, `b`. -/
theorem C5_empty_table_defined_witness :
    check_functional_dependency (⟨["a", "b"], []⟩ : DataFrame Nat) ["a"] ["b"] =
      ⟨false, 0, 0, []⟩ :=
  C5_empty_table_defined ⟨["a", "b"], []⟩ ["a"] ["b"] rfl

/-- C9: every checker result satisfies `violation_count ≤ group_count`; the
dependent-column loop breaks at the first violating column, so at most one
violation is counted per determinant-value partition. -/
theorem C9_violation_count_le_group_count {V : Type} [DecidableEq V] (df : DataFrame V)
    (det deps : List String) :
    (check_functional_dependency df det deps).violation_count ≤
      (check_functional_dependency df det deps).group_count := by
  by_cases h : cleanRows df det = []
  · rw [check_degenerate df det deps h]
  · rw [check_main df det deps h]
    exact List.countP_le_length _

/-- C10: whenever the checker reports `holds=true` there is at least one
partition of evidence: the zero-row and all-null-determinant branches both
return `holds=false` before partitioning, and otherwise the non-empty clean
row list yields at least one group key. -/
theorem C10_holds_implies_group_count_pos {V : Type} [DecidableEq V] (df : DataFrame V)
    (det deps : List String)
    (h : (check_functional_dependency df det deps).holds = true) :
    1 ≤ (check_functional_dependency df det deps).group_count := by
  by_cases hc : cleanRows df det = []
  · rw [check_degenerate df det deps hc] at h
    exact absurd h (by simp)
  · rw [check_main df det deps hc]
    have hne : groupKeys det (cleanRows df det) ≠ [] := by
      unfold groupKeys
      cases hcl : cleanRows df det with
      | nil => exact absurd hcl hc
      | cons r t => simp [uniqueFirst, uniqueFirstAux]
    exact List.length_pos.mpr hne

/-- Witness for C10 at Scenario A, where `id → sub` holds. -/
theorem C10_holds_implies_group_count_pos_witness :
    1 ≤ (check_functional_dependency dfScenarioA ["id"] ["sub"]).group_count :=
  C10_holds_implies_group_count_pos dfScenarioA ["id"] ["sub"] (by decide)

/-- C3 counterexample: on a zero-row table the checker returns
`holds=false` together with `violation_count=0`, so `holds` is not
equivalent to `violation_count == 0` over every checker result. -/
theorem C3_counterexample :
    ¬ (((check_functional_dependency (⟨["a", "b"], []⟩ : DataFrame Nat) ["a"] ["b"]).holds
          = true) ↔
       (check_functional_dependency (⟨["a", "b"], []⟩ : DataFrame Nat) ["a"] ["b"]).violation_count
          = 0) := by
  decide

/-- C3 (amended): `holds` is true iff `violation_count = 0` **and** at
least one row survives the determinant-null filter (the zero-row and
all-null-determinant branches return `holds=false` with a zero count); and
whenever `holds` is true the example list is empty. -/
theorem C3_holds_iff_no_violation {V : Type} [DecidableEq V] (df : DataFrame V)
    (det deps : List String) :
    ((check_functional_dependency df det deps).holds = true ↔
      ((check_functional_dependency df det deps).violation_count = 0 ∧
        cleanRows df det ≠ [])) ∧
    ((check_functional_dependency df det deps).holds = true →
      (check_functional_dependency df det deps).violation_examples = []) := by
  by_cases hc : cleanRows df det = []
  · rw [check_degenerate df det deps hc]
    simp [hc]
  · rw [check_main df det deps hc]
    constructor
    · simp [hc]
    · intro h
      simp only [decide_eq_true_eq] at h
      have hnone : ∀ k ∈ groupKeys det (cleanRows df det),
          groupExample df.cols det deps (cleanRows df det) k = none := by
        intro k hk
        have := (List.countP_eq_zero.mp h) k hk
        cases hfv : firstViolatingDep df.cols deps (groupRows det (cleanRows df det) k) with
        | none =>
            unfold groupExample
            rw [hfv]
            rfl
        | some c => exact absurd (by simp [hfv]) this
      simp only [List.filterMap_eq_nil_iff.mpr hnone, List.take_nil]

/-- Witness for C3 (amended) at Scenario A: the iff and, with the holding
check there, the emptiness of the example list. -/
theorem C3_holds_iff_no_violation_witness :
    (check_functional_dependency dfScenarioA ["id"] ["sub"]).violation_examples = [] :=
  (C3_holds_iff_no_violation dfScenarioA ["id"] ["sub"]).2 (by decide)

/-- C1 counterexample: in `dfTwoDeps` the single partition `k = 1` shows
more than one distinct non-null value in **both** dependent columns `a` and
`b`, so counting one violation per (partition, dependent-column) pair would
give 2, but the checker counts 1 — the dependent-column loop breaks at the
first violating column. -/
theorem C1_counterexample :
    1 < distinctNonNull (groupRows ["k"] (cleanRows dfTwoDeps ["k"]) [some 1]) "a" ∧
    1 < distinctNonNull (groupRows ["k"] (cleanRows dfTwoDeps ["k"]) [some 1]) "b" ∧
    groupKeys ["k"] (cleanRows dfTwoDeps ["k"]) = [[some 1]] ∧
    (check_functional_dependency dfTwoDeps ["k"] ["a", "b"]).violation_count = 1 := by
  decide

/-- C1 (amended): every partition is inspected and no partition stops the
others from being counted, but within one partition the dependent-column
loop short-circuits: `violation_count` is incremented by exactly 1 for each
partition having at least one dependent column (present in the table) with
more than one distinct non-null value, regardless of how many of its
dependent columns violate; the dependent columns after the first violating
one in the same partition are skipped. -/
theorem C1_one_violation_per_partition {V : Type} [DecidableEq V] (df : DataFrame V)
    (det deps : List String) (h : cleanRows df det ≠ []) :
    (check_functional_dependency df det deps).violation_count =
      ((groupKeys det (cleanRows df det)).filter fun k =>
        decide (∃ c ∈ deps, c ∈ df.cols ∧
          1 < distinctNonNull (groupRows det (cleanRows df det) k) c)).length := by
  rw [check_main df det deps h]
  simp only [List.countP_eq_length_filter]
  congr 1
  apply List.filter_congr
  intro k _
  rcases hfv : (firstViolatingDep df.cols deps (groupRows det (cleanRows df det) k)).isSome with _ | _
  · have := (firstViolatingDep_isSome df.cols deps (groupRows det (cleanRows df det) k)).not.mp
      (by rw [hfv]; simp)
    simp [this]
  · have := (firstViolatingDep_isSome df.cols deps (groupRows det (cleanRows df det) k)).mp hfv
    simp [this]

/-- Witness for C1 (amended) at the two-dependent-column table. -/
theorem C1_one_violation_per_partition_witness :
    (check_functional_dependency dfTwoDeps ["k"] ["a", "b"]).violation_count =
      ((groupKeys ["k"] (cleanRows dfTwoDeps ["k"])).filter fun k =>
        decide (∃ c ∈ ["a", "b"], c ∈ dfTwoDeps.cols ∧
          1 < distinctNonNull (groupRows ["k"] (cleanRows dfTwoDeps ["k"]) k) c)).length :=
  C1_one_violation_per_partition dfTwoDeps ["k"] ["a", "b"] (by decide)

/-- C2 counterexample: on `dfDupPK` the declared primary key `id` carries
the duplicate value 5 paired with two different `x` values; the checker run
by the builder reports `holds=false`, yet the builder's discovered list
contains **no** `Primary Key` record at all — the failing outcome is
omitted rather than recorded. -/
theorem C2_counterexample :
    (check_functional_dependency dfDupPK ["id"] (pkOtherCols dfDupPK ["id"])).holds = false ∧
    pkDiscoveredFDs dfDupPK ["id"] = [] := by
  decide

/-- C2 (amended): with a non-empty declared primary key and at least one
other column, the builder runs the checker with the primary key as
determinant and all other columns as dependents, but it records a
`Primary Key` entry (always with `holds=true`, `violations=0`) only when
the check holds; when the check fails, no `Primary Key` entry is added to
the report. -/
theorem C2_pk_record_only_if_holds {V : Type} [DecidableEq V] (df : DataFrame V)
    (pk : List String) (hpk : pk ≠ []) (hother : pkOtherCols df pk ≠ []) :
    pkDiscoveredFDs df pk =
      if (check_functional_dependency df pk (pkOtherCols df pk)).holds then
        [⟨pk, pkOtherCols df pk, "Primary Key", true, 0⟩]
      else [] := by
  unfold pkDiscoveredFDs
  simp [List.isEmpty_iff, hpk, hother]

/-- Witness for C2 (amended) at the duplicated-primary-key table. -/
theorem C2_pk_record_only_if_holds_witness :
    pkDiscoveredFDs dfDupPK ["id"] =
      if (check_functional_dependency dfDupPK ["id"] (pkOtherCols dfDupPK ["id"])).holds then
        [⟨["id"], pkOtherCols dfDupPK ["id"], "Primary Key", true, 0⟩]
      else [] :=
  C2_pk_record_only_if_holds dfDupPK ["id"] (by decide) (by decide)

/-- C4: the candidate-key loop classifies exactly the non-primary-key table
columns whose ratio of distinct non-null values to total row count equals 1
and whose distinct non-null count is positive; the ratio is 0 on a zero-row
table, an all-null column is never a candidate key, and a column with a
duplicated non-null value is never a candidate key. -/
theorem C4_candidate_key_iff {V : Type} [DecidableEq V] (df : DataFrame V)
    (pk : List String) (c : String) :
    (c ∈ candidate_keys df pk ↔
      c ∈ df.cols ∧ c ∉ pk ∧ uniquenessRatio df c = 1 ∧ 0 < distinctNonNull df.rows c) ∧
    (df.rows.length = 0 → uniquenessRatio df c = 0) ∧
    ((∀ r ∈ df.rows, getCell r c = none) → c ∉ candidate_keys df pk) ∧
    (∀ v : V, 2 ≤ (nonNullVals df.rows c).count v → c ∉ candidate_keys df pk) := by
  have hmem : c ∈ candidate_keys df pk ↔
      c ∈ df.cols ∧ c ∉ pk ∧ uniquenessRatio df c = 1 ∧ 0 < distinctNonNull df.rows c := by
    unfold candidate_keys
    rw [List.mem_filter]
    simp [and_assoc]
  refine ⟨hmem, ?_, ?_, ?_⟩
  · intro h
    unfold uniquenessRatio
    simp [h]
  · intro hall hc
    obtain ⟨_, _, _, hpos⟩ := hmem.mp hc
    have hnil : nonNullVals df.rows c = [] :=
      List.filterMap_eq_nil_iff.mpr fun r hr => hall r hr
    unfold distinctNonNull at hpos
    rw [hnil] at hpos
    simp at hpos
  · intro v hv hc
    obtain ⟨_, _, hratio, _⟩ := hmem.mp hc
    have hnodup : ¬ (nonNullVals df.rows c).Nodup := by
      rw [List.nodup_iff_count_le_one]
      push_neg
      exact ⟨v, by omega⟩
    have hlt : (nonNullVals df.rows c).dedup.length < (nonNullVals df.rows c).length := by
      rcases Nat.lt_or_ge (nonNullVals df.rows c).dedup.length
        (nonNullVals df.rows c).length with h1 | h1
      · exact h1
      · exact absurd
          ((List.dedup_sublist _).eq_of_length_le h1 ▸ (nonNullVals df.rows c).nodup_dedup)
          hnodup
    have hle : (nonNullVals df.rows c).length ≤ df.rows.length :=
      List.length_filterMap_le _ _
    have hpos : 0 < df.rows.length := by
      have h2 : 2 ≤ (nonNullVals df.rows c).length :=
        le_trans hv (List.count_le_length v _)
      omega
    unfold uniquenessRatio at hratio
    rw [if_pos hpos] at hratio
    have hlt2 : distinctNonNull df.rows c < df.rows.length := by
      unfold distinctNonNull
      omega
    have hq : (distinctNonNull df.rows c : ℚ) / (df.rows.length : ℚ) < 1 := by
      rw [div_lt_one (by exact_mod_cast hpos)]
      exact_mod_cast hlt2
    rw [hratio] at hq
    exact lt_irrefl _ hq

/-- Witness for C4 at the duplicated-id table: `id` holds the value 5
twice, hence is not classified as a candidate key. -/
theorem C4_candidate_key_iff_witness :
    "id" ∉ candidate_keys dfDupPK [] :=
  (C4_candidate_key_iff dfDupPK [] "id").2.2.2 5 (by decide)

/-- C6: rows with a null determinant entry are excluded before
partitioning — the checker's result on a table equals its result on the
table retaining only the rows with fully non-null determinants; and on any
table containing a null-determinant row whose remaining rows (non-empty,
per §4.2 step 1 an empty remainder is no evidence) satisfy the dependency,
the checker reports `holds=true`. -/
theorem C6_null_determinant_rows_excluded {V : Type} [DecidableEq V] (df : DataFrame V)
    (det deps : List String) :
    (check_functional_dependency df det deps =
      check_functional_dependency ⟨df.cols, cleanRows df det⟩ det deps) ∧
    ((∃ r ∈ df.rows, ∃ c ∈ det, getCell r c = none) →
      SatisfiesFD df.cols det deps (cleanRows df det) →
      cleanRows df det ≠ [] →
      (check_functional_dependency df det deps).holds = true) := by
  have hidem : cleanRows ⟨df.cols, cleanRows df det⟩ det = cleanRows df det := by
    unfold cleanRows
    apply List.filter_eq_self.mpr
    intro r hr
    exact List.of_mem_filter hr
  constructor
  · by_cases hc : cleanRows df det = []
    · rw [check_degenerate df det deps hc,
        check_degenerate ⟨df.cols, cleanRows df det⟩ det deps (by rw [hidem]; exact hc)]
    · rw [check_main df det deps hc,
        check_main ⟨df.cols, cleanRows df det⟩ det deps (by rw [hidem]; exact hc)]
      rw [hidem]
  · intro _ hsat hne
    rw [check_main df det deps hne]
    simp only [decide_eq_true_eq]
    apply List.countP_eq_zero.mpr
    intro k _
    simp only [Bool.not_eq_true]
    rw [← Bool.not_eq_true, firstViolatingDep_isSome]
    rintro ⟨c, hc, hcol, hlt⟩
    have hpair : ∀ a ∈ nonNullVals (groupRows det (cleanRows df det) k) c,
        ∀ b ∈ nonNullVals (groupRows det (cleanRows df det) k) c, a = b := by
      intro a ha b hb
      obtain ⟨r1, hr1, hv1⟩ := List.mem_filterMap.mp ha
      obtain ⟨r2, hr2, hv2⟩ := List.mem_filterMap.mp hb
      obtain ⟨hr1c, hk1⟩ := List.mem_filter.mp hr1
      obtain ⟨hr2c, hk2⟩ := List.mem_filter.mp hr2
      have hkeq : detKey det r1 = detKey det r2 := by
        rw [decide_eq_true_eq] at hk1 hk2
        rw [hk1, hk2]
      have := hsat c hc hcol r1 hr1c r2 hr2c hkeq
        (by rw [hv1]; rfl) (by rw [hv2]; rfl)
      rw [hv1, hv2] at this
      exact Option.some_injective V this
    have hle : distinctNonNull (groupRows det (cleanRows df det) k) c ≤ 1 := by
      unfold distinctNonNull
      rw [← List.card_toFinset]
      apply Finset.card_le_one.mpr
      intro a ha b hb
      simp only [List.mem_toFinset] at ha hb
      exact hpair a ha b hb
    omega

/-- Witness for C6 at the Scenario-D table `dfNullDet`: the first row has a
null determinant, the two remaining rows satisfy `a → b`, and the checker
holds. -/
theorem C6_null_determinant_rows_excluded_witness :
    (check_functional_dependency dfNullDet ["a"] ["b"]).holds = true :=
  (C6_null_determinant_rows_excluded dfNullDet ["a"] ["b"]).2
    (by decide) (by decide) (by decide)

/-- C7: the checker is a pure function — running it twice on the same
snapshot gives the same result — and its aggregate `(violation_count,
group_count)` is invariant under any permutation of the partition list:
counting violations over any reordering `keys'` of the group keys yields
the recorded counts. -/
theorem C7_deterministic_order_independent {V : Type} [DecidableEq V] (df : DataFrame V)
    (det deps : List String) (keys' : List (List (Option V)))
    (hperm : List.Perm (groupKeys det (cleanRows df det)) keys') :
    (check_functional_dependency df det deps = check_functional_dependency df det deps) ∧
    (check_functional_dependency df det deps).violation_count =
      keys'.countP (fun k =>
        (firstViolatingDep df.cols deps (groupRows det (cleanRows df det) k)).isSome) ∧
    (check_functional_dependency df det deps).group_count = keys'.length := by
  refine ⟨rfl, ?_⟩
  by_cases hc : cleanRows df det = []
  · have h0 : groupKeys det (cleanRows df det) = [] := by
      rw [hc]
      rfl
    rw [h0] at hperm
    have hk : keys' = [] := hperm.symm.eq_nil
    rw [check_degenerate df det deps hc, hk]
    exact ⟨rfl, rfl⟩
  · rw [check_main df det deps hc]
    exact ⟨hperm.countP_eq _, hperm.length_eq⟩

/-- Witness for C7 at Scenario B with the two group keys processed in the
reversed order. -/
theorem C7_deterministic_order_independent_witness :
    (check_functional_dependency dfScenarioB ["sub_id"] ["name"] =
      check_functional_dependency dfScenarioB ["sub_id"] ["name"]) ∧
    (check_functional_dependency dfScenarioB ["sub_id"] ["name"]).violation_count =
      ([[some 2], [some 1]] : List (List (Option Nat))).countP (fun k =>
        (firstViolatingDep dfScenarioB.cols ["name"]
          (groupRows ["sub_id"] (cleanRows dfScenarioB ["sub_id"]) k)).isSome) ∧
    (check_functional_dependency dfScenarioB ["sub_id"] ["name"]).group_count =
      ([[some 2], [some 1]] : List (List (Option Nat))).length :=
  C7_deterministic_order_independent dfScenarioB ["sub_id"] ["name"]
    [[some 2], [some 1]] (by decide)

theorem length_filter_le_of_nodup_subset {α : Type} [DecidableEq α] {l1 l2 : List α}
    {p q : α → Bool} (hnd : l1.Nodup)
    (hsub : ∀ x ∈ l1.filter p, x ∈ l2.filter q) :
    (l1.filter p).length ≤ (l2.filter q).length := by
  calc (l1.filter p).length = (l1.filter p).toFinset.card :=
        (List.toFinset_card_of_nodup (hnd.filter p)).symm
    _ ≤ (l2.filter q).toFinset.card := by
        apply Finset.card_le_card
        intro x hx
        simp only [List.mem_toFinset] at hx ⊢
        exact hsub x hx
    _ ≤ (l2.filter q).length := List.toFinset_card_le _

theorem violation_count_mono {V : Type} [DecidableEq V] (cols det deps : List String)
    {rows' rows : List (Row V)} (h : List.Sublist rows' rows) :
    (check_functional_dependency ⟨cols, rows'⟩ det deps).violation_count ≤
      (check_functional_dependency ⟨cols, rows⟩ det deps).violation_count := by
  by_cases hc : cleanRows ⟨cols, rows'⟩ det = []
  · rw [check_degenerate _ det deps hc]
    exact Nat.zero_le _
  · have hsub : List.Sublist (cleanRows ⟨cols, rows'⟩ det) (cleanRows ⟨cols, rows⟩ det) :=
      h.filter _
    have hc2 : cleanRows ⟨cols, rows⟩ det ≠ [] := by
      intro he
      exact hc (List.sublist_nil.mp (he ▸ hsub))
    rw [check_main _ det deps hc, check_main _ det deps hc2]
    simp only [List.countP_eq_length_filter]
    apply length_filter_le_of_nodup_subset (nodup_uniqueFirst _)
    intro k hk
    obtain ⟨hk1, hk2⟩ := List.mem_filter.mp hk
    apply List.mem_filter.mpr
    constructor
    · rw [mem_groupKeys]
      obtain ⟨r, hr, hrk⟩ := List.mem_map.mp ((mem_uniqueFirst _ _).mp hk1)
      exact ⟨r, hsub.subset hr, hrk⟩
    · exact firstViolatingDep_mono _ deps (hsub.filter _) hk2

/-- C8: removing any row of the table (the row at any index `i`) and
re-running the checker never increases `violation_count`: each surviving
partition is a subset of the original one, so its distinct dependent-value
counts can only shrink. -/
theorem C8_remove_row_monotone {V : Type} [DecidableEq V] (df : DataFrame V)
    (det deps : List String) (i : Nat) :
    (check_functional_dependency ⟨df.cols, df.rows.eraseIdx i⟩ det deps).violation_count ≤
      (check_functional_dependency df det deps).violation_count :=
  violation_count_mono df.cols det deps (List.eraseIdx_sublist df.rows i)

end FDDiscovery
